import Mathlib

/-!
Verification of the hand-tracking demo scripts (`Handtracker.py`,
`ws_server.py`): a shallow embedding of the per-frame gesture
classifier, the cursor extractor, and the two frame loops (the OpenCV
overlay loop and the WebSocket publishing loop), together with proofs
of the specified properties.

Coordinates are modelled as rationals: the code only reads, compares
(`<`, `>`) and copies them, so any linearly ordered field is faithful.
-/

namespace HandTracking

/-- One normalized landmark point, as produced by the landmark source
(`hand_landmarks.landmark[i]` with fields `.x`, `.y`). -/
structure Landmark where
  x : ℚ
  y : ℚ
deriving DecidableEq, Repr

/-- One detected hand: the handedness label
(`results.multi_handedness[i].classification[0].label`) together with
the ordered sequence of exactly 21 landmarks (`hand_landmarks.landmark`),
indexed 0–20. -/
structure HandObservation where
  label : String
  lm : Fin 21 → Landmark
deriving DecidableEq

/-- `Handtracker.py` lines 72–75:
`thumb_up = 1 if lm[4].x < lm[3].x else 0` when `hand_label == "Right"`,
and `1 if lm[4].x > lm[3].x else 0` otherwise. -/
def thumb_up (label : String) (lm : Fin 21 → Landmark) : Nat :=
  if label = "Right" then
    (if (lm 4).x < (lm 3).x then 1 else 0)
  else
    (if (lm 4).x > (lm 3).x then 1 else 0)

/-- `Handtracker.py` line 77: `tips = [8, 12, 16, 20]`. -/
def tips : List (Fin 21) := [8, 12, 16, 20]

/-- `Handtracker.py` line 78: `pips = [6, 10, 14, 18]`. -/
def pips : List (Fin 21) := [6, 10, 14, 18]

/-- `Handtracker.py` lines 80–83: for each `(tip, pip)` in
`zip(tips, pips)`, append `1 if lm[tip].y < lm[pip].y else 0`. -/
def fingers (lm : Fin 21 → Landmark) : List Nat :=
  (tips.zip pips).map (fun tp => if (lm tp.1).y < (lm tp.2).y then 1 else 0)

/-- `Handtracker.py` line 85: `all_fingers = [thumb_up] + fingers`. -/
def all_fingers (label : String) (lm : Fin 21 → Landmark) : List Nat :=
  thumb_up label lm :: fingers lm

/-- `Handtracker.py` line 86: `count_up = sum(all_fingers)`. -/
def count_up (label : String) (lm : Fin 21 → Landmark) : Nat :=
  (all_fingers label lm).sum

/-- The spec's Finger State: five per-finger "extended" booleans in
the fixed order thumb, index, middle, ring, pinky, plus the count. -/
structure FingerState where
  thumb : Bool
  index : Bool
  middle : Bool
  ring : Bool
  pinky : Bool
  count : Nat
deriving DecidableEq, Repr

/-- The spec's `classify`: packaging of the inline classifier of
`Handtracker.py` lines 70–86 as a function of one hand observation.
Each boolean is the corresponding 0/1 entry of `all_fingers`, and
`count` is `count_up`. -/
def classify (obs : HandObservation) : FingerState where
  thumb := thumb_up obs.label obs.lm = 1
  index := ((obs.lm 8).y < (obs.lm 6).y : Bool)
  middle := ((obs.lm 12).y < (obs.lm 10).y : Bool)
  ring := ((obs.lm 16).y < (obs.lm 14).y : Bool)
  pinky := ((obs.lm 20).y < (obs.lm 18).y : Bool)
  count := count_up obs.label obs.lm

/-- The ordered list of the five flags of a `FingerState`, in the
fixed order thumb, index, middle, ring, pinky. -/
def FingerState.flags (fs : FingerState) : List Bool :=
  [fs.thumb, fs.index, fs.middle, fs.ring, fs.pinky]

/-- The `fingers` list spelled out at its four index pairs. -/
theorem fingers_eq (lm : Fin 21 → Landmark) :
    fingers lm =
      [if (lm 8).y < (lm 6).y then 1 else 0,
       if (lm 12).y < (lm 10).y then 1 else 0,
       if (lm 16).y < (lm 14).y then 1 else 0,
       if (lm 20).y < (lm 18).y then 1 else 0] := rfl

/-! ### Cursor extraction and the published message (`ws_server.py`) -/

/-- The spec's Cursor Sample: a normalized position plus a pinch flag. -/
structure CursorSample where
  x : ℚ
  y : ℚ
  pinch : Bool
deriving DecidableEq, Repr

/-- The spec's `extract`: `ws_server.py` lines 52–55 read the index
fingertip (`x = lm[8].x`, `y = lm[8].y`) and set `pinch` to `False`. -/
def extract (lm : Fin 21 → Landmark) : CursorSample where
  x := (lm 8).x
  y := (lm 8).y
  pinch := false

/-- A JSON scalar value as used by the published message: either a
number or a boolean. -/
inductive JVal where
  | num (q : ℚ)
  | bool (b : Bool)
deriving DecidableEq, Repr

/-- A published message: an ordered list of key/value fields, the
embedding of the Python dict literal handed to `json.dumps`. -/
def Msg : Type := List (String × JVal)

/-- `ws_server.py` line 55: `msg = {"x": x, "y": y, "pinch": False}`,
with `x`, `y`, `pinch` the fields of the extracted cursor sample. -/
def msgOf (lm : Fin 21 → Landmark) : Msg :=
  [("x", JVal.num (extract lm).x),
   ("y", JVal.num (extract lm).y),
   ("pinch", JVal.bool (extract lm).pinch)]

/-- The keys of a message, in order. -/
def Msg.keys (m : Msg) : List String := m.map Prod.fst

/-! ### The publishing loop (`ws_server.py`, `handler`)

One iteration of `handler`'s `while True` consumes one capture-read
result (`success, frame = cap.read()`) and, when the read succeeds,
one detection result (`results.multi_hand_landmarks`, modelled as the
list of detected hands, empty when none). The iteration produces the
messages sent over the handler's single WebSocket connection and the
duration of the `asyncio.sleep` yield it ends with. -/

/-- The per-iteration input of the publishing loop: the capture-read
success flag and the list of hands detected in the frame. -/
structure PublishInput where
  read : Bool
  hands : List HandObservation

/-- One iteration of `handler` (`ws_server.py` lines 35–59): a failed
read sleeps 0.01 s and retries; a successful read sends the first
detected hand's message (nothing when no hand) and sleeps 1/60 s.
Returns the messages sent this iteration and the sleep duration. -/
def handlerFrame (inp : PublishInput) : List Msg × ℚ :=
  if inp.read = false then
    ([], 1/100)
  else
    match inp.hands with
    | [] => ([], 1/60)
    | h :: _ => ([msgOf h.lm], 1/60)

/-- The messages sent by `handler` over a finite prefix of its input
stream. The loop is `while True` with no `break`: it never terminates
on its own, so every finite trace is a prefix of one run. -/
def handlerRun : List PublishInput → List Msg
  | [] => []
  | inp :: rest => (handlerFrame inp).1 ++ handlerRun rest

/-- The resources both scripts must release: the capture device
(`cap.release()`) and the display windows (`cv2.destroyAllWindows()`). -/
structure Resources where
  capReleased : Bool
  windowsDestroyed : Bool
deriving DecidableEq, Repr

/-- The cleanup code shared by both scripts: `cap.release()` then
`cv2.destroyAllWindows()`. -/
def cleanup (_ : Resources) : Resources where
  capReleased := true
  windowsDestroyed := true

/-- `ws_server.py` lines 68–74: `asyncio.run(main())` inside
`try: ... finally: cap.release(); cv2.destroyAllWindows()`. The server
runs forever, so the run ends only by an external interrupt, after an
arbitrary number `k` of handler iterations; the `finally` block then
executes the cleanup unconditionally. The result is the messages sent
before the interrupt and the final resource state. -/
def wsMainRun (inps : List PublishInput) (k : Nat) : List Msg × Resources :=
  (handlerRun (inps.take k), cleanup ⟨false, false⟩)

/-! ### The overlay loop (`Handtracker.py`, main loop)

One iteration consumes one capture-read result, one detection result
and one `cv2.waitKey(1)` key code. It produces the draw operations
performed on the frame and either continues or exits the loop. -/

/-- A drawing operation on the current frame: the landmark skeleton of
one hand (`mp_drawing.draw_landmarks`) or a text label
(`cv2.putText(image, text, (x, y), ...)`). -/
inductive DrawOp where
  | skeleton (h : HandObservation)
  | text (s : String) (posX posY : Nat)
deriving DecidableEq

/-- The per-iteration input of the overlay loop: the capture-read
success flag, the detected hands, and the `cv2.waitKey(1)` result. -/
structure OverlayInput where
  read : Bool
  hands : List HandObservation
  key : Nat

/-- `Handtracker.py` lines 59–88: for each detected hand (enumerated
from index `i`), draw its skeleton and the label
`f"{hand_label}: {count_up} fingers"` at `(10, 60 + 40*i)`. -/
def overlayDraws : Nat → List HandObservation → List DrawOp
  | _, [] => []
  | i, h :: rest =>
      DrawOp.skeleton h ::
      DrawOp.text (h.label ++ ": " ++ toString (count_up h.label h.lm) ++ " fingers") 10 (60 + 40 * i) ::
      overlayDraws (i + 1) rest

/-- The overlay main loop (`Handtracker.py` lines 34–97) over a finite
input trace: a failed read breaks out immediately (drawing nothing for
that frame); otherwise the frame's draws happen, and ESC
(`cv2.waitKey(1) & 0xFF == 27`) breaks out after them. `some ds` means
the loop exited with `ds` the draws performed; `none` means the loop
was still running when the trace ran out. -/
def overlayLoop : List OverlayInput → Option (List DrawOp)
  | [] => none
  | inp :: rest =>
      if inp.read = false then
        some []
      else
        let draws := overlayDraws 0 inp.hands
        if inp.key &&& 255 = 27 then
          some draws
        else
          (overlayLoop rest).map (fun ds => draws ++ ds)

/-- The whole `Handtracker.py` script: run the main loop; when it
exits (by `break`), the cleanup of lines 99–104 runs. -/
def overlayRun (inps : List OverlayInput) : Option (List DrawOp × Resources) :=
  (overlayLoop inps).map (fun ds => (ds, cleanup ⟨false, false⟩))

/-! ### Claim theorems -/

/-- C1: for every 21-landmark observation, a "Right"-labeled hand has
the thumb reported extended iff the thumb tip's x (landmark 4) is
strictly less than the thumb IP joint's x (landmark 3), and a
"Left"-labeled hand iff tip x is strictly greater than joint x; the
inverse cases (including equality) report false. -/
theorem claim_C1_thumb_flips_by_handedness (lm : Fin 21 → Landmark) :
    ((classify ⟨"Right", lm⟩).thumb = true ↔ (lm 4).x < (lm 3).x) ∧
    ((classify ⟨"Left", lm⟩).thumb = true ↔ (lm 4).x > (lm 3).x) := by
  constructor <;>
  · simp only [classify, thumb_up, decide_eq_true_eq]
    split_ifs <;> simp_all

/-- C2: each non-thumb finger (index, middle, ring, pinky; tips
8/12/16/20, PIPs 6/10/14/18) is reported extended iff the fingertip's
y is strictly less than the PIP joint's y; equal y values report not
extended. -/
theorem claim_C2_finger_tip_below_pip (obs : HandObservation) :
    ((classify obs).index = true ↔ (obs.lm 8).y < (obs.lm 6).y) ∧
    ((classify obs).middle = true ↔ (obs.lm 12).y < (obs.lm 10).y) ∧
    ((classify obs).ring = true ↔ (obs.lm 16).y < (obs.lm 14).y) ∧
    ((classify obs).pinky = true ↔ (obs.lm 20).y < (obs.lm 18).y) ∧
    ((obs.lm 8).y = (obs.lm 6).y → (classify obs).index = false) ∧
    ((obs.lm 12).y = (obs.lm 10).y → (classify obs).middle = false) ∧
    ((obs.lm 16).y = (obs.lm 14).y → (classify obs).ring = false) ∧
    ((obs.lm 20).y = (obs.lm 18).y → (classify obs).pinky = false) := by
  simp only [classify, decide_eq_true_eq, decide_eq_false_iff_not]
  refine ⟨trivial, trivial, trivial, trivial, ?_, ?_, ?_, ?_⟩ <;>
    exact fun h => by rw [h]; exact lt_irrefl _

/-- C3: the cursor extractor returns x and y equal to landmark 8's
normalized coordinates and pinch is always false, for every input. -/
theorem claim_C3_extract_index_fingertip (lm : Fin 21 → Landmark) :
    (extract lm).x = (lm 8).x ∧ (extract lm).y = (lm 8).y ∧
    (extract lm).pinch = false :=
  ⟨rfl, rfl, rfl⟩

/-- `thumb_up` only ever takes the values 0 and 1. -/
theorem thumb_up_zero_or_one (label : String) (lm : Fin 21 → Landmark) :
    thumb_up label lm = 0 ∨ thumb_up label lm = 1 := by
  unfold thumb_up; split_ifs <;> simp

/-- The source's 0/1 list `all_fingers` is the classifier's flag list
in the fixed order thumb, index, middle, ring, pinky. -/
theorem all_fingers_eq_flags (obs : HandObservation) :
    all_fingers obs.label obs.lm =
      (classify obs).flags.map (fun b => if b then 1 else 0) := by
  simp only [all_fingers, fingers_eq, classify, FingerState.flags, List.map,
    decide_eq_true_eq]
  rcases thumb_up_zero_or_one obs.label obs.lm with h | h <;> simp [h]

/-- C8: the classifier is a pure deterministic function (identical
observations give identical states), the five flags are in the fixed
order thumb, index, middle, ring, pinky (witnessed by `all_fingers`
being exactly their 0/1 image), and the count equals the number of
true flags, hence lies in [0,5]. -/
theorem claim_C8_classify_pure_count (obs o2 : HandObservation) (h : obs = o2) :
    classify obs = classify o2 ∧
    all_fingers obs.label obs.lm =
      (classify obs).flags.map (fun b => if b then 1 else 0) ∧
    (classify obs).count = (classify obs).flags.count true ∧
    (classify obs).count ≤ 5 := by
  subst h
  have hc : (classify obs).count =
      ((classify obs).flags.map (fun b => if b then 1 else 0)).sum := by
    show count_up obs.label obs.lm = _
    rw [count_up, all_fingers_eq_flags obs]
  refine ⟨rfl, all_fingers_eq_flags obs, ?_, ?_⟩ <;>
  · rw [hc]
    simp only [FingerState.flags]
    generalize (classify obs).thumb = b1
    generalize (classify obs).index = b2
    generalize (classify obs).middle = b3
    generalize (classify obs).ring = b4
    generalize (classify obs).pinky = b5
    cases b1 <;> cases b2 <;> cases b3 <;> cases b4 <;> cases b5 <;> decide

/-- Closed witness for C8 at a concrete observation. -/
theorem claim_C8_classify_pure_count_witness :
    (⟨"Right", fun _ => ⟨0, 0⟩⟩ : HandObservation) = ⟨"Right", fun _ => ⟨0, 0⟩⟩ ∧
    (classify ⟨"Right", fun _ => ⟨0, 0⟩⟩ = classify ⟨"Right", fun _ => ⟨0, 0⟩⟩ ∧
     all_fingers "Right" (fun _ => ⟨0, 0⟩) =
       (classify ⟨"Right", fun _ => ⟨0, 0⟩⟩).flags.map (fun b => if b then 1 else 0) ∧
     (classify ⟨"Right", fun _ => ⟨0, 0⟩⟩).count =
       (classify ⟨"Right", fun _ => ⟨0, 0⟩⟩).flags.count true ∧
     (classify ⟨"Right", fun _ => ⟨0, 0⟩⟩).count ≤ 5) :=
  ⟨rfl, claim_C8_classify_pure_count _ _ rfl⟩

/-- C9: the classifier output depends only on the handedness label and
on landmarks 3, 4, 6, 8, 10, 12, 14, 16, 18, 20: two observations with
the same label agreeing on those ten landmarks classify identically,
whatever the other eleven landmarks hold. -/
theorem claim_C9_depends_on_ten_landmarks (label : String)
    (lm1 lm2 : Fin 21 → Landmark)
    (h : ∀ i ∈ ([3, 4, 6, 8, 10, 12, 14, 16, 18, 20] : List (Fin 21)),
      lm1 i = lm2 i) :
    classify ⟨label, lm1⟩ = classify ⟨label, lm2⟩ := by
  have h3 : lm1 3 = lm2 3 := h 3 (by decide)
  have h4 : lm1 4 = lm2 4 := h 4 (by decide)
  have h6 : lm1 6 = lm2 6 := h 6 (by decide)
  have h8 : lm1 8 = lm2 8 := h 8 (by decide)
  have h10 : lm1 10 = lm2 10 := h 10 (by decide)
  have h12 : lm1 12 = lm2 12 := h 12 (by decide)
  have h14 : lm1 14 = lm2 14 := h 14 (by decide)
  have h16 : lm1 16 = lm2 16 := h 16 (by decide)
  have h18 : lm1 18 = lm2 18 := h 18 (by decide)
  have h20 : lm1 20 = lm2 20 := h 20 (by decide)
  simp only [classify, count_up, all_fingers, fingers_eq, thumb_up,
    h3, h4, h6, h8, h10, h12, h14, h16, h18, h20]

/-- Closed witness for C9: two observations differing only at
landmark 0 classify the same. -/
theorem claim_C9_depends_on_ten_landmarks_witness :
    (∀ i ∈ ([3, 4, 6, 8, 10, 12, 14, 16, 18, 20] : List (Fin 21)),
      (fun _ : Fin 21 => (⟨0, 0⟩ : Landmark)) i =
        (fun j : Fin 21 => if j = 0 then (⟨1, 1⟩ : Landmark) else ⟨0, 0⟩) i) ∧
    classify ⟨"Right", fun _ => ⟨0, 0⟩⟩ =
      classify ⟨"Right", fun j => if j = 0 then ⟨1, 1⟩ else ⟨0, 0⟩⟩ :=
  ⟨by decide, claim_C9_depends_on_ten_landmarks "Right" _ _ (by decide)⟩

/-- C10: any handedness label other than exactly "Right" (e.g. "Left",
the empty string, a misspelling) takes the `else` branch and so uses
the Left-hand thumb rule: extended iff tip x strictly greater than
joint x; no label is rejected. -/
theorem claim_C10_non_right_label_left_rule (label : String)
    (lm : Fin 21 → Landmark) (h : label ≠ "Right") :
    (classify ⟨label, lm⟩).thumb = true ↔ (lm 4).x > (lm 3).x := by
  simp only [classify, thumb_up, if_neg h, decide_eq_true_eq]
  split_ifs <;> simp_all

/-- Closed witness for C10 at the empty-string label. -/
theorem claim_C10_non_right_label_left_rule_witness :
    ("" : String) ≠ "Right" ∧
    ((classify ⟨"", fun j => if j = 4 then ⟨1, 0⟩ else ⟨0, 0⟩⟩).thumb = true ↔
      ((fun j : Fin 21 => if j = 4 then (⟨1, 0⟩ : Landmark) else ⟨0, 0⟩) 4).x >
        ((fun j : Fin 21 => if j = 4 then (⟨1, 0⟩ : Landmark) else ⟨0, 0⟩) 3).x) :=
  ⟨by decide, claim_C10_non_right_label_left_rule "" _ (by decide)⟩

/-- C4: a failed capture read makes the overlay loop terminate
immediately (drawing nothing for that frame, running cleanup,
ignoring the rest of the trace), while the publishing handler sends no
message that iteration, yields for 0.01 s, and continues with the rest
of its trace unchanged. -/
theorem claim_C4_read_failure_behavior (oi : OverlayInput)
    (orest : List OverlayInput) (pi : PublishInput)
    (prest : List PublishInput) (ho : oi.read = false)
    (hp : pi.read = false) :
    overlayRun (oi :: orest) = some ([], ⟨true, true⟩) ∧
    handlerFrame pi = ([], 1/100) ∧
    handlerRun (pi :: prest) = handlerRun prest := by
  refine ⟨?_, ?_, ?_⟩
  · simp [overlayRun, overlayLoop, ho, cleanup]
  · simp [handlerFrame, hp]
  · simp [handlerRun, handlerFrame, hp]

/-- Closed witness for C4 at concrete failed-read inputs. -/
theorem claim_C4_read_failure_behavior_witness :
    (⟨false, [], 0⟩ : OverlayInput).read = false ∧
    (⟨false, []⟩ : PublishInput).read = false ∧
    (overlayRun [⟨false, [], 0⟩] = some ([], ⟨true, true⟩) ∧
     handlerFrame ⟨false, []⟩ = ([], 1/100) ∧
     handlerRun [⟨false, []⟩] = handlerRun []) :=
  ⟨rfl, rfl, claim_C4_read_failure_behavior ⟨false, [], 0⟩ [] ⟨false, []⟩ [] rfl rfl⟩

/-- C5: on every terminating run of the overlay script — the loop
exits only by the failed-read break or the ESC break, both error and
stop paths — the final resource state has the capture device released
and the windows destroyed; and the publishing script's `try/finally`
yields the same released state after an interrupt at any point of any
trace. -/
theorem claim_C5_cleanup_every_exit (oinps : List OverlayInput)
    (ds : List DrawOp) (r : Resources)
    (h : overlayRun oinps = some (ds, r)) (pinps : List PublishInput)
    (k : Nat) :
    (r.capReleased = true ∧ r.windowsDestroyed = true) ∧
    ((wsMainRun pinps k).2.capReleased = true ∧
     (wsMainRun pinps k).2.windowsDestroyed = true) := by
  refine ⟨?_, rfl, rfl⟩
  rw [overlayRun, Option.map_eq_some'] at h
  obtain ⟨a, _, ha⟩ := h
  cases ha
  exact ⟨rfl, rfl⟩

/-- Closed witness for C5: a trace whose first read fails terminates
with both resources released. -/
theorem claim_C5_cleanup_every_exit_witness :
    overlayRun [⟨false, [], 0⟩] = some ([], ⟨true, true⟩) ∧
    (((⟨true, true⟩ : Resources).capReleased = true ∧
      (⟨true, true⟩ : Resources).windowsDestroyed = true) ∧
     ((wsMainRun [] 0).2.capReleased = true ∧
      (wsMainRun [] 0).2.windowsDestroyed = true)) :=
  ⟨rfl, claim_C5_cleanup_every_exit [⟨false, [], 0⟩] [] ⟨true, true⟩ rfl [] 0⟩

/-- C6: a frame with zero detected hands draws nothing in the overlay
variant, sends nothing in the publishing variant, and both loops
continue to the next frame exactly as if the frame had not occurred
(absent a stop keypress in the overlay variant). -/
theorem claim_C6_zero_hands_frame (oi : OverlayInput)
    (orest : List OverlayInput) (pi : PublishInput)
    (prest : List PublishInput) (ho1 : oi.read = true)
    (ho2 : oi.hands = []) (ho3 : oi.key &&& 255 ≠ 27)
    (hp1 : pi.read = true) (hp2 : pi.hands = []) :
    overlayDraws 0 oi.hands = [] ∧
    overlayLoop (oi :: orest) = overlayLoop orest ∧
    (handlerFrame pi).1 = [] ∧
    handlerRun (pi :: prest) = handlerRun prest := by
  refine ⟨by rw [ho2]; rfl, ?_, ?_, ?_⟩
  · simp only [overlayLoop, ho1, ho2, if_neg ho3]
    simp [overlayDraws]
  · simp [handlerFrame, hp1, hp2]
  · simp [handlerRun, handlerFrame, hp1, hp2]

/-- Closed witness for C6 at concrete zero-hand inputs. -/
theorem claim_C6_zero_hands_frame_witness :
    (⟨true, [], 0⟩ : OverlayInput).read = true ∧
    (⟨true, [], 0⟩ : OverlayInput).hands = [] ∧
    (⟨true, [], 0⟩ : OverlayInput).key &&& 255 ≠ 27 ∧
    (⟨true, []⟩ : PublishInput).read = true ∧
    (⟨true, []⟩ : PublishInput).hands = [] ∧
    (overlayDraws 0 ([] : List HandObservation) = [] ∧
     overlayLoop [⟨true, [], 0⟩, ⟨false, [], 0⟩] = overlayLoop [⟨false, [], 0⟩] ∧
     (handlerFrame ⟨true, []⟩).1 = [] ∧
     handlerRun [⟨true, []⟩] = handlerRun []) :=
  ⟨rfl, rfl, by decide, rfl, rfl,
   claim_C6_zero_hands_frame ⟨true, [], 0⟩ [⟨false, [], 0⟩] ⟨true, []⟩ []
     rfl rfl (by decide) rfl rfl⟩

/-- C7: on a frame with at least one detected hand, the handler sends
exactly one message over its single WebSocket connection; the message
is the first hand's cursor sample serialized with exactly the keys
"x", "y", "pinch" in that order, carrying landmark 8's coordinates and
pinch = false. -/
theorem claim_C7_publish_first_hand (pi : PublishInput)
    (h0 : HandObservation) (hs : List HandObservation)
    (hr : pi.read = true) (hh : pi.hands = h0 :: hs) :
    (handlerFrame pi).1 = [msgOf h0.lm] ∧
    (msgOf h0.lm).keys = ["x", "y", "pinch"] ∧
    msgOf h0.lm =
      [("x", JVal.num (h0.lm 8).x), ("y", JVal.num (h0.lm 8).y),
       ("pinch", JVal.bool false)] := by
  refine ⟨?_, rfl, rfl⟩
  simp [handlerFrame, hr, hh]

/-- Closed witness for C7 at a concrete one-hand input. -/
theorem claim_C7_publish_first_hand_witness :
    (⟨true, [⟨"Right", fun _ => ⟨0, 0⟩⟩]⟩ : PublishInput).read = true ∧
    (⟨true, [⟨"Right", fun _ => ⟨0, 0⟩⟩]⟩ : PublishInput).hands =
      [⟨"Right", fun _ => ⟨0, 0⟩⟩] ∧
    ((handlerFrame ⟨true, [⟨"Right", fun _ => ⟨0, 0⟩⟩]⟩).1 =
       [msgOf (fun _ => ⟨0, 0⟩)] ∧
     (msgOf (fun _ => (⟨0, 0⟩ : Landmark))).keys = ["x", "y", "pinch"] ∧
     msgOf (fun _ => (⟨0, 0⟩ : Landmark)) =
       [("x", JVal.num 0), ("y", JVal.num 0), ("pinch", JVal.bool false)]) :=
  ⟨rfl, rfl,
   claim_C7_publish_first_hand ⟨true, [⟨"Right", fun _ => ⟨0, 0⟩⟩]⟩
     ⟨"Right", fun _ => ⟨0, 0⟩⟩ [] rfl rfl⟩

end HandTracking
